import Mathlib

set_option maxHeartbeats 1000000

/-!
Verification of `backend/app/image_processor.py` (THWHelferboard).

The module is embedded shallowly: filesystem paths become a record of the
components the code actually reads (`stem`, `parent`, `suffix`,
`is_absolute()`), decoded images become a record of width, height, PIL mode
string and a pixel function, and the effectful functions become pure
functions from an explicit environment (which file exists, which saves and
unlinks succeed, what decoding returns) to their boolean result together
with a trace of the file writes / deletions they perform.
-/

/-- Model of a `pathlib.Path` as used by `image_processor.py`.  The code only
reads `.stem`, `.parent`, `.suffix`, `.is_absolute()` and joins a parent
directory with a freshly formatted file name, so a path is modelled by those
components.  `ext` carries the leading dot, as Python's `Path.suffix` does. -/
structure FsPath where
  abs : Bool
  parent : String
  stem : String
  ext : String
deriving DecidableEq, Repr

/-- The `if not original_path.is_absolute(): original_path = static_dir / original_path`
resolution performed at the top of `generate_thumbnails`, `delete_thumbnails`
and `delete_original_and_thumbnails`.  The base directory is modelled as an
absolute directory string (the caller passes `BASE_DIR / "static"`). -/
def resolvePath (p : FsPath) (static_dir : String) : FsPath :=
  if p.abs then p
  else { abs := true, parent := static_dir ++ "/" ++ p.parent, stem := p.stem, ext := p.ext }

/-- `THUMBNAIL_SIZES` from `image_processor.py`: `(width, height, name_suffix)`
tuples.  The height component is an `Option Nat` because the module-level
`CAROUSEL_SIZE` constant uses `None` in that position. -/
def THUMBNAIL_SIZES : List (Nat × Option Nat × String) :=
  [(110, some 110, "thumb-sm"),
   (220, some 220, "thumb-md"),
   (165, some 165, "thumb-detail"),
   (330, some 330, "thumb-detail-2x")]

/-- `CAROUSEL_SIZE = (1000, None)` from `image_processor.py`. -/
def CAROUSEL_SIZE : Nat × Option Nat := (1000, none)

/-- `parent / f"{stem}-{sfx}.{fmt}"`: the derived-artifact path built from an
original's parent directory and stem. -/
def derivedPath (p : FsPath) (sfx fmt : String) : FsPath :=
  { abs := p.abs, parent := p.parent, stem := p.stem ++ "-" ++ sfx, ext := "." ++ fmt }

/-- Key list of the Python dict comprehension `{fmt: [] for fmt in with_formats}`:
one key per distinct format string, in first-occurrence order. -/
def pyDictKeys : List String → List String
  | [] => []
  | f :: rest => f :: (pyDictKeys rest).filter (fun g => g ≠ f)

/-- `thumbs[fmt].append(v)` on an association-list model of the dict: the value
stored under key `k` grows by `v`. -/
def pyAppend (d : List (String × List FsPath)) (k : String) (v : FsPath) :
    List (String × List FsPath) :=
  d.map (fun e => if e.1 = k then (e.1, e.2 ++ [v]) else e)

/-- `get_thumbnail_paths` from `image_processor.py`: initialises one empty list
per requested format, then for every `(width, height, suffix)` in
`THUMBNAIL_SIZES` and every format appends `parent / f"{stem}-{suffix}.{fmt}"`
to that format's list.  (The Python function returns `str(thumb_path)`; the
model keeps the structured path.) -/
def get_thumbnail_paths (original_path : FsPath)
    (with_formats : Option (List String) := none) : List (String × List FsPath) :=
  let formats := with_formats.getD ["webp", "avif", "jpg"]
  let init := (pyDictKeys formats).map (fun f => (f, ([] : List FsPath)))
  THUMBNAIL_SIZES.foldl
    (fun acc spec =>
      formats.foldl
        (fun acc2 fmt => pyAppend acc2 fmt (derivedPath original_path spec.2.2 fmt)) acc)
    init

/-- Python `str.lower()` as used on `file_path.suffix`: each character is
lower-cased (extensions are ASCII, where `Char.toLower` agrees with
Python). -/
def lowerString (s : String) : String :=
  ⟨s.data.map Char.toLower⟩

/-- `is_image_processable` from `image_processor.py`: membership of the
lower-cased extension in the fixed allow-list. -/
def is_image_processable (file_path : FsPath) : Bool :=
  lowerString file_path.ext ∈ [".jpg", ".jpeg", ".png", ".gif", ".webp", ".bmp", ".tiff"]

/-- A pixel with red, green, blue and alpha components (0–255).  For modes
without an alpha channel the `a` component is not meaningful; for modes
without colour (`L`, `LA`) the grey level is stored in all of `r`, `g`, `b`;
for palette mode `P` the palette lookup is already applied, with the
palette-transparency in `a`. -/
structure RGBA where
  r : Nat
  g : Nat
  b : Nat
  a : Nat
deriving DecidableEq, Repr

/-- Model of an in-memory PIL image: dimensions, the PIL mode string
(`"RGB"`, `"RGBA"`, `"LA"`, `"P"`, `"L"`, `"CMYK"`, ...) and a pixel
function. -/
structure PImage where
  width : Nat
  height : Nat
  mode : String
  pix : Nat → Nat → RGBA

/-- Models PIL `img.convert("RGBA")`: the mode becomes `"RGBA"`.  Pixel data
is unchanged under the `RGBA` storage convention of `RGBA`/`PImage` (palette
lookup already applied for `P`, grey level replicated for `LA`). -/
def convertRGBA (img : PImage) : PImage :=
  { img with mode := "RGBA" }

/-- Models PIL `img.convert("RGB")`: the mode becomes `"RGB"` and any alpha
information is discarded (the result is fully opaque). -/
def convertRGB (img : PImage) : PImage :=
  { img with mode := "RGB", pix := fun x y => { img.pix x y with a := 255 } }

/-- Models PIL `Image.new("RGB", size, (255, 255, 255))`: an opaque white
image. -/
def newWhiteRGB (w h : Nat) : PImage :=
  { width := w, height := h, mode := "RGB", pix := fun _ _ => ⟨255, 255, 255, 255⟩ }

/-- One channel of PIL `background.paste(img, mask=alpha)`: the foreground is
blended over the background with the 0–255 mask value as weight (rounded to
nearest). -/
def blendChannel (fg bg a : Nat) : Nat :=
  (fg * a + bg * (255 - a) + 127) / 255

/-- Models PIL `background.paste(img, mask=m)` for two images of the same
size: with a mask, each pixel is the mask-weighted blend of foreground over
background; with `mask=None` the foreground is copied (converted to the
background's opaque mode).  The result keeps the background's mode. -/
def pasteOnto (background fg : PImage) (mask : Option (Nat → Nat → Nat)) : PImage :=
  { width := background.width, height := background.height, mode := background.mode,
    pix := fun x y =>
      match mask with
      | none => { fg.pix x y with a := 255 }
      | some m =>
          let p := fg.pix x y
          let b := background.pix x y
          ⟨blendChannel p.r b.r (m x y), blendChannel p.g b.g (m x y),
           blendChannel p.b b.b (m x y), 255⟩ }

/-- The colour-normalisation block of `generate_thumbnails`
(`image_processor.py` lines 95–107): palette images are expanded to `RGBA`;
images with an alpha or luminance-alpha channel are pasted onto an opaque
white background of the same size with their alpha band
(`img.split()[-1]`) as mask; any other non-`RGB` mode is converted to
`RGB`. -/
def normalizeColor (img0 : PImage) : PImage :=
  if img0.mode = "RGBA" ∨ img0.mode = "LA" ∨ img0.mode = "P" then
    let img1 := if img0.mode = "P" then convertRGBA img0 else img0
    if img1.mode = "RGBA" ∨ img1.mode = "LA" then
      let background := newWhiteRGB img1.width img1.height
      let img2 := if img1.mode = "LA" then convertRGBA img1 else img1
      pasteOnto background img2
        (if img2.mode = "RGBA" then some (fun x y => (img2.pix x y).a) else none)
    else img1
  else if img0.mode ≠ "RGB" then convertRGB img0
  else img0

/-- `(2 * a + b) / (2 * b)`: division `a / b` rounded to the nearest integer
(halves rounding up).  Models the float rounding inside PIL's
`Image.thumbnail`. -/
def roundDiv (a b : Nat) : Nat :=
  (2 * a + b) / (2 * b)

/-- Models PIL `img.thumbnail((bw, bh), LANCZOS)` on an image of size
`w × h`: if the image already fits the bounding box it is left unchanged
(never upscale); otherwise the binding dimension is set to the bound and the
other is scaled proportionally, rounded to nearest and clamped to at least
one pixel. -/
def pilThumbnail (w h bw bh : Nat) : Nat × Nat :=
  if w ≤ bw ∧ h ≤ bh then (w, h)
  else if w * bh ≤ bw * h then (max 1 (roundDiv (bh * w) h), bh)
  else (bw, max 1 (roundDiv (bw * h) w))

/-- Python truthiness of the optional height in a size tuple: `None` and `0`
are falsy. -/
def pyTruthy : Option Nat → Bool
  | none => false
  | some n => n ≠ 0

/-- The bounding box passed to `img_thumb.thumbnail` in `generate_thumbnails`
(line 121): `(width, height) if height else (width, width)`. -/
def thumbBoxOf (w : Nat) (h : Option Nat) : Nat × Nat :=
  if pyTruthy h then (w, h.getD 0) else (w, w)

/-- The carousel-size step of `generate_thumbnails` (lines 110–112): the copy
is resized with a `(1000, 1000)` bounding box only when either dimension
exceeds 1000 pixels, and passes through unscaled otherwise. -/
def carouselResize (w h : Nat) : Nat × Nat :=
  if w > 1000 ∨ h > 1000 then pilThumbnail w h 1000 1000 else (w, h)

/-- One `img.save(path, format, ...)` call recorded by the model: target path,
PIL format name, the keyword arguments the code passes (`method=6` is WebP's
maximum compression effort, `optimize=True` is JPEG's optimized entropy
coding), and the dimensions of the image being written. -/
structure SaveEvent where
  path : FsPath
  format : String
  quality : Nat
  method : Option Nat
  optimize : Bool
  width : Nat
  height : Nat
deriving DecidableEq, Repr

/-- Environment for `generate_thumbnails`: whether Pillow imported
(`HAS_PILLOW`), which files exist, what `Image.open` yields (`none` models a
raised decode error) and which `img.save` calls succeed (a save to an
unavailable format, e.g. AVIF without `pillow-heif`, fails; a failing save
writes nothing). -/
structure GenEnv where
  hasPillow : Bool
  fileExists : FsPath → Bool
  decodeResult : Option PImage
  saveOk : FsPath → String → Bool

/-- The WebP thumbnail save of `generate_thumbnails` for one size tuple. -/
def webpEvent (op : FsPath) (img : PImage) (spec : Nat × Option Nat × String) : SaveEvent :=
  let box := thumbBoxOf spec.1 spec.2.1
  let dims := pilThumbnail img.width img.height box.1 box.2
  { path := derivedPath op spec.2.2 "webp", format := "WEBP", quality := 80,
    method := some 6, optimize := false, width := dims.1, height := dims.2 }

/-- The AVIF thumbnail save of `generate_thumbnails` for one size tuple. -/
def avifEvent (op : FsPath) (img : PImage) (spec : Nat × Option Nat × String) : SaveEvent :=
  let box := thumbBoxOf spec.1 spec.2.1
  let dims := pilThumbnail img.width img.height box.1 box.2
  { path := derivedPath op spec.2.2 "avif", format := "AVIF", quality := 75,
    method := none, optimize := false, width := dims.1, height := dims.2 }

/-- The JPEG thumbnail save of `generate_thumbnails` for one size tuple. -/
def jpgEvent (op : FsPath) (img : PImage) (spec : Nat × Option Nat × String) : SaveEvent :=
  let box := thumbBoxOf spec.1 spec.2.1
  let dims := pilThumbnail img.width img.height box.1 box.2
  { path := derivedPath op spec.2.2 "jpg", format := "JPEG", quality := 80,
    method := none, optimize := true, width := dims.1, height := dims.2 }

/-- The carousel save of `generate_thumbnails` (lines 114–115):
`parent / f"{stem}-carousel.webp"`, WebP, quality 85, `method=6`. -/
def carouselEvent (op : FsPath) (img : PImage) : SaveEvent :=
  let dims := carouselResize img.width img.height
  { path := derivedPath op "carousel" "webp", format := "WEBP", quality := 85,
    method := some 6, optimize := false, width := dims.1, height := dims.2 }

/-- The per-size loop of `generate_thumbnails` (lines 119–140).  The WebP and
JPEG saves are not individually guarded, so a failure there raises out of the
loop to the enclosing `except` (modelled by `Except.error` carrying the
writes performed so far); only the AVIF save sits in its own
`try`/`except`, whose failure is merely logged. -/
def processSizes (env : GenEnv) (op : FsPath) (img : PImage) (keep : Bool) :
    List (Nat × Option Nat × String) → List SaveEvent →
    Except (List SaveEvent) (List SaveEvent)
  | [], acc => .ok acc
  | spec :: rest, acc =>
    if env.saveOk (derivedPath op spec.2.2 "webp") "WEBP" then
      let acc1 := acc ++ [webpEvent op img spec]
      let acc2 :=
        if env.saveOk (derivedPath op spec.2.2 "avif") "AVIF" then
          acc1 ++ [avifEvent op img spec]
        else acc1
      if keep then
        if env.saveOk (derivedPath op spec.2.2 "jpg") "JPEG" then
          processSizes env op img keep rest (acc2 ++ [jpgEvent op img spec])
        else .error acc2
      else processSizes env op img keep rest acc2
    else .error acc

/-- `generate_thumbnails` from `image_processor.py`, returning its boolean
result together with the trace of files written.  Precondition checks
(Pillow present, resolved original exists, extension processable) come
first; then the original is decoded, colour-normalised, saved as the
carousel variant and run through the per-size loop, the enclosing
`try`/`except` turning any unguarded failure into `False`. -/
def generate_thumbnails (env : GenEnv) (original_path : FsPath) (static_dir : String)
    (keep_original_format : Bool := true) : Bool × List SaveEvent :=
  if ¬ env.hasPillow then (false, [])
  else
    let op := resolvePath original_path static_dir
    if ¬ env.fileExists op then (false, [])
    else if ¬ is_image_processable op then (false, [])
    else
      match env.decodeResult with
      | none => (false, [])
      | some img0 =>
        let img := normalizeColor img0
        if env.saveOk (derivedPath op "carousel" "webp") "WEBP" then
          match processSizes env op img keep_original_format THUMBNAIL_SIZES
              [carouselEvent op img] with
          | .ok evs => (true, evs)
          | .error evs => (false, evs)
        else (false, [])

/-- Environment for the delete operations: which files exist and which
`path.unlink()` calls succeed (a failing unlink raises, is caught and logged,
and removes nothing). -/
structure DelEnv where
  fileExists : FsPath → Bool
  unlinkOk : FsPath → Bool

/-- One deletion attempt recorded by the model: the file was removed, or the
`unlink` raised and was caught/logged. -/
inductive DelEvent where
  | deleted (p : FsPath)
  | failed (p : FsPath)
deriving DecidableEq, Repr

/-- The path a `DelEvent` talks about. -/
def DelEvent.path : DelEvent → FsPath
  | .deleted p => p
  | .failed p => p

/-- Whether a `DelEvent` records a caught deletion error. -/
def DelEvent.isFailed : DelEvent → Bool
  | .deleted _ => false
  | .failed _ => true

/-- One `if path.exists(): try: path.unlink() except: log` step of the delete
loops: a missing file is skipped silently, an unlink error is caught and
recorded, a successful unlink is recorded. -/
def tryUnlink (env : DelEnv) (acc : List DelEvent) (p : FsPath) : List DelEvent :=
  if env.fileExists p then
    if env.unlinkOk p then acc ++ [DelEvent.deleted p] else acc ++ [DelEvent.failed p]
  else acc

/-- The full list of derived paths `delete_thumbnails` visits, in program
order: the carousel file first, then for every size tuple the `webp`, `avif`
and `jpg` variants. -/
def deleteTargets (op : FsPath) : List FsPath :=
  derivedPath op "carousel" "webp" ::
    THUMBNAIL_SIZES.flatMap (fun spec =>
      ["webp", "avif", "jpg"].map (fun fmt => derivedPath op spec.2.2 fmt))

/-- `delete_thumbnails` from `image_processor.py`, returning its boolean
result together with the trace of deletion attempts.  After resolving the
path it returns `False` if the original does not exist; otherwise it visits
every derived path, skipping missing files and catching (only logging)
unlink errors, and returns `True` unconditionally at the end. -/
def delete_thumbnails (env : DelEnv) (original_path : FsPath) (static_dir : String) :
    Bool × List DelEvent :=
  let op := resolvePath original_path static_dir
  if ¬ env.fileExists op then (false, [])
  else (true, (deleteTargets op).foldl (tryUnlink env) [])

/-- `delete_original_and_thumbnails` from `image_processor.py`: resolves the
path, runs `delete_thumbnails` (a `False` there clears `success`), then — if
the original exists — unlinks it, a caught unlink error also clearing
`success`. -/
def delete_original_and_thumbnails (env : DelEnv) (original_path : FsPath)
    (static_dir : String) : Bool × List DelEvent :=
  let op := resolvePath original_path static_dir
  let thumbResult := delete_thumbnails env op static_dir
  if env.fileExists op then
    if env.unlinkOk op then (thumbResult.1, thumbResult.2 ++ [DelEvent.deleted op])
    else (false, thumbResult.2 ++ [DelEvent.failed op])
  else (thumbResult.1, thumbResult.2)

/-! ## Helper lemmas -/

lemma innerFold_eq (pathOf : String → FsPath) (formats : List String) :
    ∀ acc : List (String × List FsPath),
      formats.foldl (fun a f => pyAppend a f (pathOf f)) acc
        = acc.map (fun e => (e.1, e.2 ++ (formats.filter (fun g => g = e.1)).map pathOf)) := by
  induction formats with
  | nil => intro acc; simp
  | cons f fs ih =>
    intro acc
    simp only [List.foldl_cons]
    rw [ih]
    simp only [pyAppend, List.map_map]
    apply List.map_congr_left
    intro e _
    by_cases h : e.1 = f
    · simp [h, List.filter_cons, List.append_assoc]
    · have h' : ¬ (f = e.1) := fun hc => h hc.symm
      simp [h, h', List.filter_cons]

lemma sizesFold_eq (p : FsPath) (formats : List String) :
    ∀ (sizes : List (Nat × Option Nat × String)) (acc : List (String × List FsPath)),
      sizes.foldl
          (fun acc spec =>
            formats.foldl (fun a f => pyAppend a f (derivedPath p spec.2.2 f)) acc) acc
        = acc.map (fun e =>
            (e.1, e.2 ++ sizes.flatMap (fun spec =>
              (formats.filter (fun g => g = e.1)).map (fun g => derivedPath p spec.2.2 g)))) := by
  intro sizes
  induction sizes with
  | nil => intro acc; simp
  | cons s ss ih =>
    intro acc
    simp only [List.foldl_cons]
    rw [innerFold_eq, ih]
    simp only [List.map_map]
    apply List.map_congr_left
    intro e _
    simp [List.append_assoc]

lemma pyDictKeys_of_nodup : ∀ l : List String, l.Nodup → pyDictKeys l = l := by
  intro l
  induction l with
  | nil => intro _; rfl
  | cons f fs ih =>
    intro h
    rcases List.nodup_cons.mp h with ⟨hf, hfs⟩
    simp only [pyDictKeys, ih hfs]
    congr 1
    apply List.filter_eq_self.mpr
    intro g hg
    simp only [decide_eq_true_eq, ne_eq]
    exact fun hc => hf (hc ▸ hg)

lemma filter_eq_singleton_of_nodup :
    ∀ l : List String, l.Nodup → ∀ f ∈ l, l.filter (fun g => g = f) = [f] := by
  intro l
  induction l with
  | nil => intro _ f hf; cases hf
  | cons a fs ih =>
    intro h f hf
    rcases List.nodup_cons.mp h with ⟨ha, hfs⟩
    rcases List.mem_cons.mp hf with hfa | hmem
    · subst hfa
      rw [List.filter_cons_of_pos (by simp)]
      have htail : fs.filter (fun g => g = f) = [] := by
        apply List.filter_eq_nil_iff.mpr
        intro g hg
        simp only [decide_eq_true_eq]
        exact fun hc => ha (hc ▸ hg)
      rw [htail]
    · have hne : ¬ (a = f) := fun hc => ha (hc ▸ hmem)
      rw [List.filter_cons_of_neg (by simp [hne])]
      exact ih hfs f hmem

/-- Closed-form description of `get_thumbnail_paths` for an arbitrary format
list, duplicates included: one dict entry per distinct format, whose list
repeats each size's path once per occurrence of the format. -/
lemma get_thumbnail_paths_eq (p : FsPath) (formats : List String) :
    get_thumbnail_paths p (some formats)
      = (pyDictKeys formats).map (fun f =>
          (f, THUMBNAIL_SIZES.flatMap (fun spec =>
            (formats.filter (fun g => g = f)).map (fun g => derivedPath p spec.2.2 g)))) := by
  unfold get_thumbnail_paths
  simp only [Option.getD]
  rw [sizesFold_eq]
  simp [List.map_map, Function.comp]

/-- A concrete original path used by the closed instances below. -/
def samplePath : FsPath := ⟨true, "uploads/photos", "abc123", ".jpg"⟩

lemma roundDiv_le_of_le (a b c : Nat) (hb : 0 < b) (h : a ≤ b * c) : roundDiv a b ≤ c := by
  unfold roundDiv
  have h2 : 2 * a + b < (c + 1) * (2 * b) := by nlinarith
  have h3 := (Nat.div_lt_iff_lt_mul (by omega : 0 < 2 * b)).mpr h2
  omega

lemma mul_roundDiv_le (a b : Nat) (hb : 0 < b) : b * roundDiv a b ≤ a + b := by
  unfold roundDiv
  have h1 := Nat.div_add_mod (2 * a + b) (2 * b)
  nlinarith [Nat.zero_le ((2 * a + b) % (2 * b))]

lemma le_mul_roundDiv (a b : Nat) (hb : 0 < b) : a ≤ b * roundDiv a b + b := by
  unfold roundDiv
  have h1 := Nat.div_add_mod (2 * a + b) (2 * b)
  have h2 : (2 * a + b) % (2 * b) < 2 * b := Nat.mod_lt _ (by omega)
  nlinarith

lemma pilThumbnail_le_box (w h bw bh : Nat) (hw : 0 < w) (hh : 0 < h)
    (hbw : 0 < bw) (hbh : 0 < bh) :
    (pilThumbnail w h bw bh).1 ≤ bw ∧ (pilThumbnail w h bw bh).2 ≤ bh := by
  unfold pilThumbnail
  by_cases hfit : w ≤ bw ∧ h ≤ bh
  · simp only [hfit, if_true]
    exact ⟨hfit.1, hfit.2⟩
  · by_cases hbr : w * bh ≤ bw * h
    · simp only [hfit, if_false, hbr, if_true]
      refine ⟨Nat.max_le.mpr ⟨hbw, ?_⟩, le_refl bh⟩
      exact roundDiv_le_of_le (bh * w) h bw hh (by nlinarith)
    · simp only [hfit, if_false, hbr, if_false]
      refine ⟨le_refl bw, Nat.max_le.mpr ⟨hbh, ?_⟩⟩
      exact roundDiv_le_of_le (bw * h) w bh hw (by nlinarith)

lemma pilThumbnail_no_upscale (w h bw bh : Nat) (hw : 0 < w) (hh : 0 < h)
    (hbw : 0 < bw) (hbh : 0 < bh) :
    (pilThumbnail w h bw bh).1 ≤ w ∧ (pilThumbnail w h bw bh).2 ≤ h := by
  unfold pilThumbnail
  by_cases hfit : w ≤ bw ∧ h ≤ bh
  · simp [hfit]
  · by_cases hbr : w * bh ≤ bw * h
    · simp only [hfit, if_false, hbr, if_true]
      have hbh_le : bh ≤ h := by
        rcases Nat.lt_or_ge bw w with hlt | hge
        · nlinarith
        · rcases Decidable.not_and_iff_or_not.mp hfit with hc | hc
          · omega
          · omega
      refine ⟨Nat.max_le.mpr ⟨hw, ?_⟩, hbh_le⟩
      exact roundDiv_le_of_le (bh * w) h w hh (by nlinarith)
    · simp only [hfit, if_false, hbr, if_false]
      have hbw_le : bw ≤ w := by
        rcases Nat.lt_or_ge bh h with hlt | hge
        · nlinarith
        · rcases Decidable.not_and_iff_or_not.mp hfit with hc | hc
          · omega
          · omega
      refine ⟨hbw_le, Nat.max_le.mpr ⟨hh, ?_⟩⟩
      exact roundDiv_le_of_le (bw * h) w h hw (by nlinarith)

lemma pilThumbnail_aspect (w h bw bh : Nat) (hw : 0 < w) (hh : 0 < h)
    (hbw : 0 < bw) (hbh : 0 < bh) :
    h * (pilThumbnail w h bw bh).1 ≤ w * (pilThumbnail w h bw bh).2 + max w h
      ∧ w * (pilThumbnail w h bw bh).2 ≤ h * (pilThumbnail w h bw bh).1 + max w h := by
  unfold pilThumbnail
  by_cases hfit : w ≤ bw ∧ h ≤ bh
  · rw [if_pos hfit]
    dsimp only
    constructor <;> nlinarith [Nat.le_max_left w h, Nat.le_max_right w h]
  · by_cases hbr : w * bh ≤ bw * h
    · rw [if_neg hfit, if_pos hbr]
      dsimp only
      have hup := mul_roundDiv_le (bh * w) h hh
      have hdn := le_mul_roundDiv (bh * w) h hh
      rcases max_choice 1 (roundDiv (bh * w) h) with hm | hm
      · have hr : roundDiv (bh * w) h ≤ 1 := hm ▸ Nat.le_max_right 1 _
        rw [hm]
        constructor <;> nlinarith [Nat.le_max_left w h, Nat.le_max_right w h]
      · rw [hm]
        constructor <;> nlinarith [Nat.le_max_left w h, Nat.le_max_right w h]
    · rw [if_neg hfit, if_neg hbr]
      dsimp only
      have hup := mul_roundDiv_le (bw * h) w hw
      have hdn := le_mul_roundDiv (bw * h) w hw
      rcases max_choice 1 (roundDiv (bw * h) w) with hm | hm
      · have hr : roundDiv (bw * h) w ≤ 1 := hm ▸ Nat.le_max_right 1 _
        rw [hm]
        constructor <;> nlinarith [Nat.le_max_left w h, Nat.le_max_right w h]
      · rw [hm]
        constructor <;> nlinarith [Nat.le_max_left w h, Nat.le_max_right w h]

lemma resolvePath_idem (p : FsPath) (s : String) :
    resolvePath (resolvePath p s) s = resolvePath p s := by
  by_cases h : p.abs <;> simp [resolvePath, h]

lemma foldl_tryUnlink_skip (env : DelEnv) :
    ∀ (l : List FsPath) (acc : List DelEvent),
      (∀ q ∈ l, env.fileExists q = false) → List.foldl (tryUnlink env) acc l = acc := by
  intro l
  induction l with
  | nil => intro acc _; rfl
  | cons q rest ih =>
    intro acc h
    have hq : env.fileExists q = false := h q (List.mem_cons_self q rest)
    simp only [List.foldl_cons, tryUnlink, hq, Bool.false_eq_true, if_false]
    exact ih acc (fun r hr => h r (List.mem_cons_of_mem q hr))

lemma foldl_tryUnlink_acc_mem (env : DelEnv) :
    ∀ (l : List FsPath) (acc : List DelEvent) (ev : DelEvent),
      ev ∈ acc → ev ∈ List.foldl (tryUnlink env) acc l := by
  intro l
  induction l with
  | nil => intro acc ev h; exact h
  | cons q rest ih =>
    intro acc ev h
    simp only [List.foldl_cons]
    apply ih
    unfold tryUnlink
    by_cases hq : env.fileExists q = true
    · by_cases hu : env.unlinkOk q = true <;>
        simp [hq, hu, List.mem_append, h]
    · simp [Bool.eq_false_iff.mpr hq, h]

lemma foldl_tryUnlink_path_exists (env : DelEnv) :
    ∀ (l : List FsPath) (acc : List DelEvent),
      (∀ ev ∈ acc, env.fileExists ev.path = true) →
      ∀ ev ∈ List.foldl (tryUnlink env) acc l, env.fileExists ev.path = true := by
  intro l
  induction l with
  | nil => intro acc h; exact h
  | cons q rest ih =>
    intro acc h
    simp only [List.foldl_cons]
    apply ih
    intro ev hev
    unfold tryUnlink at hev
    by_cases hq : env.fileExists q = true
    · by_cases hu : env.unlinkOk q = true
      · simp only [hq, if_true, hu] at hev
        rcases List.mem_append.mp hev with h1 | h1
        · exact h ev h1
        · rcases List.mem_singleton.mp h1 with rfl
          exact hq
      · simp only [hq, if_true, hu, Bool.false_eq_true, if_false] at hev
        rcases List.mem_append.mp hev with h1 | h1
        · exact h ev h1
        · rcases List.mem_singleton.mp h1 with rfl
          exact hq
    · simp only [Bool.eq_false_iff.mpr hq, Bool.false_eq_true, if_false] at hev
      exact h ev hev

lemma foldl_tryUnlink_covers (env : DelEnv) :
    ∀ (l : List FsPath) (acc : List DelEvent) (q : FsPath),
      q ∈ l → env.fileExists q = true →
      ∃ ev ∈ List.foldl (tryUnlink env) acc l, ev.path = q := by
  intro l
  induction l with
  | nil => intro acc q hq _; cases hq
  | cons r rest ih =>
    intro acc q hq hex
    rcases List.mem_cons.mp hq with rfl | hmem
    · by_cases hu : env.unlinkOk q = true
      · refine ⟨DelEvent.deleted q, ?_, rfl⟩
        simp only [List.foldl_cons]
        apply foldl_tryUnlink_acc_mem
        simp [tryUnlink, hex, hu]
      · refine ⟨DelEvent.failed q, ?_, rfl⟩
        simp only [List.foldl_cons]
        apply foldl_tryUnlink_acc_mem
        simp [tryUnlink, hex, Bool.eq_false_iff.mpr hu]
    · simp only [List.foldl_cons]
      exact ih _ q hmem hex

/-! ## Claim C1 -/

/-- **C1** (amended: the requested formats must be pairwise distinct, which
the default list is).  For every original path `p` and every duplicate-free
format list, `get_thumbnail_paths` maps each requested format to exactly one
derived path per entry of `THUMBNAIL_SIZES`, in `THUMBNAIL_SIZES` order, each
path in `p`'s parent directory and named `{stem}-{suffix}.{format}` with the
suffixes `thumb-sm, thumb-md, thumb-detail, thumb-detail-2x`; omitting the
format list uses the default `webp, avif, jpg`.  The function is pure, so
determinism is immediate. -/
theorem c1_get_thumbnail_paths_mapping (p : FsPath) (formats : List String)
    (hnd : formats.Nodup) :
    get_thumbnail_paths p (some formats)
        = formats.map (fun f =>
            (f, THUMBNAIL_SIZES.map (fun spec => derivedPath p spec.2.2 f)))
      ∧ get_thumbnail_paths p none = get_thumbnail_paths p (some ["webp", "avif", "jpg"])
      ∧ THUMBNAIL_SIZES.map (fun spec => spec.2.2)
          = ["thumb-sm", "thumb-md", "thumb-detail", "thumb-detail-2x"]
      ∧ ∀ sfx fmt, (derivedPath p sfx fmt).parent = p.parent
          ∧ (derivedPath p sfx fmt).stem = p.stem ++ "-" ++ sfx
          ∧ (derivedPath p sfx fmt).ext = "." ++ fmt := by
  refine ⟨?_, rfl, rfl, fun sfx fmt => ⟨rfl, rfl, rfl⟩⟩
  rw [get_thumbnail_paths_eq, pyDictKeys_of_nodup formats hnd]
  apply List.map_congr_left
  intro f hf
  rw [filter_eq_singleton_of_nodup formats hnd f hf]
  simp [THUMBNAIL_SIZES]

/-- **C1, counterexample**: with the requested format list `["jpg", "jpg"]`
the returned dict has a single entry holding eight paths — two per
`THUMBNAIL_SIZES` entry, not "exactly one per entry" as the claim states for
every requested format list. -/
theorem c1_counterexample_duplicate_formats :
    THUMBNAIL_SIZES.length = 4
      ∧ (List.lookup "jpg" (get_thumbnail_paths samplePath (some ["jpg", "jpg"]))).map
            List.length = some 8 := by
  decide

/-- **C1, witness**: the amended theorem applied to a concrete path and the
concrete duplicate-free list `["webp", "jpg"]`. -/
theorem c1_witness :
    get_thumbnail_paths samplePath (some ["webp", "jpg"])
      = (["webp", "jpg"] : List String).map (fun f =>
          (f, THUMBNAIL_SIZES.map (fun spec => derivedPath samplePath spec.2.2 f))) :=
  (c1_get_thumbnail_paths_mapping samplePath ["webp", "jpg"] (by decide)).1

/-! ## Claim C4 -/

/-- **C4**: `generate_thumbnails` checks its preconditions in order — Pillow
present, resolved original exists, extension in the processable allow-list —
and on a violated precondition returns `False` having written zero derived
files; the allow-list is exactly `jpg, jpeg, png, gif, webp, bmp, tiff`
(case-insensitively), so vector formats such as `.svg` are excluded. -/
theorem c4_generate_preconditions (env : GenEnv) (p : FsPath) (s : String) (k : Bool) :
    (env.hasPillow = false → generate_thumbnails env p s k = (false, []))
      ∧ (env.fileExists (resolvePath p s) = false →
          generate_thumbnails env p s k = (false, []))
      ∧ (is_image_processable (resolvePath p s) = false →
          generate_thumbnails env p s k = (false, []))
      ∧ (∀ q : FsPath, q.ext = ".svg" → is_image_processable q = false)
      ∧ ∀ q : FsPath, is_image_processable q = true
          ↔ lowerString q.ext ∈ [".jpg", ".jpeg", ".png", ".gif", ".webp", ".bmp", ".tiff"] := by
  refine ⟨?_, ?_, ?_, ?_, fun q => by simp [is_image_processable]⟩
  · intro h
    simp [generate_thumbnails, h]
  · intro h
    by_cases hp : env.hasPillow <;> simp [generate_thumbnails, hp, h]
  · intro h
    by_cases hp : env.hasPillow
    · by_cases he : env.fileExists (resolvePath p s) = true <;>
        simp [generate_thumbnails, hp, he, h]
    · simp [generate_thumbnails, hp]
  · intro q hq
    unfold is_image_processable
    rw [hq]
    decide

/-- A vector-format original: `uploads/emblems/logo.svg`. -/
def svgPath : FsPath := ⟨true, "uploads/emblems", "logo", ".svg"⟩

/-- **C4, witness**: three concrete runs, one per precondition — Pillow
missing, original missing, `.svg` original — each returning `False` with an
empty write trace. -/
theorem c4_witness :
    generate_thumbnails ⟨false, fun _ => true, none, fun _ _ => true⟩ samplePath "static" true
        = (false, [])
      ∧ generate_thumbnails ⟨true, fun _ => false, none, fun _ _ => true⟩ samplePath "static" true
        = (false, [])
      ∧ generate_thumbnails ⟨true, fun _ => true, none, fun _ _ => true⟩ svgPath "static" true
        = (false, []) :=
  ⟨(c4_generate_preconditions ⟨false, fun _ => true, none, fun _ _ => true⟩
      samplePath "static" true).1 rfl,
   (c4_generate_preconditions ⟨true, fun _ => false, none, fun _ _ => true⟩
      samplePath "static" true).2.1 rfl,
   (c4_generate_preconditions ⟨true, fun _ => true, none, fun _ _ => true⟩
      svgPath "static" true).2.2.1 (by decide)⟩

/-! ## Claim C5 -/

/-- **C5**: for the resize step of `generate_thumbnails`, neither output
dimension exceeds the bounding box and neither exceeds the source (no
upscaling); a source already inside the box is returned at its original
size; aspect ratio is preserved up to the pixel rounding (the cross products
`h·w'` and `w·h'` differ by at most `max w h`, i.e. the scaled dimension is
within one pixel of exact proportionality); a size tuple with a falsy height
turns into a square `width × width` box; and the carousel copy is resized
with the `(1000, 1000)` box only when a dimension exceeds 1000 pixels,
passing through unscaled otherwise. -/
theorem c5_resize_semantics (w h bw bh : Nat) (hw : 0 < w) (hh : 0 < h)
    (hbw : 0 < bw) (hbh : 0 < bh) :
    ((pilThumbnail w h bw bh).1 ≤ bw ∧ (pilThumbnail w h bw bh).2 ≤ bh)
      ∧ ((pilThumbnail w h bw bh).1 ≤ w ∧ (pilThumbnail w h bw bh).2 ≤ h)
      ∧ (w ≤ bw → h ≤ bh → pilThumbnail w h bw bh = (w, h))
      ∧ (h * (pilThumbnail w h bw bh).1 ≤ w * (pilThumbnail w h bw bh).2 + max w h
          ∧ w * (pilThumbnail w h bw bh).2 ≤ h * (pilThumbnail w h bw bh).1 + max w h)
      ∧ (∀ wdt hgt, pyTruthy hgt = false → thumbBoxOf wdt hgt = (wdt, wdt))
      ∧ (w ≤ 1000 → h ≤ 1000 → carouselResize w h = (w, h))
      ∧ ((1000 < w ∨ 1000 < h) → carouselResize w h = pilThumbnail w h 1000 1000) := by
  refine ⟨pilThumbnail_le_box w h bw bh hw hh hbw hbh,
    pilThumbnail_no_upscale w h bw bh hw hh hbw hbh,
    ?_, pilThumbnail_aspect w h bw bh hw hh hbw hbh, ?_, ?_, ?_⟩
  · intro h1 h2
    simp [pilThumbnail, h1, h2]
  · intro wdt hgt hf
    simp [thumbBoxOf, hf]
  · intro h1 h2
    unfold carouselResize
    rw [if_neg (by omega)]
  · intro hbig
    unfold carouselResize
    rw [if_pos hbig]

/-- **C5, witness**: the theorem applied to a 2000 × 1500 source and the
110 × 110 thumbnail box (the resized copy is 110 × 83). -/
theorem c5_witness :
    (((pilThumbnail 2000 1500 110 110).1 ≤ 110 ∧ (pilThumbnail 2000 1500 110 110).2 ≤ 110)
      ∧ ((pilThumbnail 2000 1500 110 110).1 ≤ 2000 ∧ (pilThumbnail 2000 1500 110 110).2 ≤ 1500)
      ∧ (2000 ≤ 110 → 1500 ≤ 110 → pilThumbnail 2000 1500 110 110 = (2000, 1500))
      ∧ (1500 * (pilThumbnail 2000 1500 110 110).1
            ≤ 2000 * (pilThumbnail 2000 1500 110 110).2 + max 2000 1500
          ∧ 2000 * (pilThumbnail 2000 1500 110 110).2
            ≤ 1500 * (pilThumbnail 2000 1500 110 110).1 + max 2000 1500)
      ∧ (∀ wdt hgt, pyTruthy hgt = false → thumbBoxOf wdt hgt = (wdt, wdt))
      ∧ (2000 ≤ 1000 → 1500 ≤ 1000 → carouselResize 2000 1500 = (2000, 1500))
      ∧ ((1000 < 2000 ∨ 1000 < 1500) →
          carouselResize 2000 1500 = pilThumbnail 2000 1500 1000 1000))
      ∧ pilThumbnail 2000 1500 110 110 = (110, 83) :=
  ⟨c5_resize_semantics 2000 1500 110 110 (by decide) (by decide) (by decide) (by decide),
   by decide⟩

/-- The events the per-size loop records for one size tuple when the two
mandatory saves succeed: the WebP event, the AVIF event if that save
succeeds, and the JPEG event if the legacy format is kept. -/
def sizeTrace (env : GenEnv) (op : FsPath) (img : PImage) (keep : Bool)
    (spec : Nat × Option Nat × String) : List SaveEvent :=
  [webpEvent op img spec]
    ++ (if env.saveOk (derivedPath op spec.2.2 "avif") "AVIF" then [avifEvent op img spec]
        else [])
    ++ (if keep then [jpgEvent op img spec] else [])

/-- Both unguarded (mandatory) saves of one size tuple succeed. -/
def mandatoryOk (env : GenEnv) (op : FsPath) (keep : Bool)
    (spec : Nat × Option Nat × String) : Prop :=
  env.saveOk (derivedPath op spec.2.2 "webp") "WEBP" = true
    ∧ (keep = true → env.saveOk (derivedPath op spec.2.2 "jpg") "JPEG" = true)

lemma processSizes_ok (env : GenEnv) (op : FsPath) (img : PImage) (keep : Bool) :
    ∀ (sizes : List (Nat × Option Nat × String)) (acc : List SaveEvent),
      (∀ spec ∈ sizes, mandatoryOk env op keep spec) →
      processSizes env op img keep sizes acc
        = .ok (acc ++ sizes.flatMap (sizeTrace env op img keep)) := by
  intro sizes
  induction sizes with
  | nil =>
    intro acc _
    simp [processSizes]
  | cons spec rest ih =>
    intro acc h
    have hs := h spec (List.mem_cons_self spec rest)
    unfold processSizes
    rw [if_pos hs.1]
    cases keep with
    | false =>
      rw [if_neg (by simp)]
      rw [ih _ (fun t ht => h t (List.mem_cons_of_mem spec ht))]
      by_cases ha : env.saveOk (derivedPath op spec.2.2 "avif") "AVIF" = true <;>
        simp [sizeTrace, ha, List.append_assoc]
    | true =>
      rw [if_pos rfl, if_pos (hs.2 rfl)]
      rw [ih _ (fun t ht => h t (List.mem_cons_of_mem spec ht))]
      by_cases ha : env.saveOk (derivedPath op spec.2.2 "avif") "AVIF" = true <;>
        simp [sizeTrace, ha, List.append_assoc]

lemma processSizes_abort (env : GenEnv) (op : FsPath) (img : PImage) (keep : Bool)
    (spec : Nat × Option Nat × String) (rest : List (Nat × Option Nat × String))
    (hfail : env.saveOk (derivedPath op spec.2.2 "webp") "WEBP" = false) :
    ∀ (done : List (Nat × Option Nat × String)) (acc : List SaveEvent),
      (∀ t ∈ done, mandatoryOk env op keep t) →
      processSizes env op img keep (done ++ spec :: rest) acc
        = .error (acc ++ done.flatMap (sizeTrace env op img keep)) := by
  intro done
  induction done with
  | nil =>
    intro acc _
    simp only [List.nil_append, List.flatMap_nil, List.append_nil]
    unfold processSizes
    rw [if_neg (by simp [hfail])]
  | cons t ts ih =>
    intro acc h
    have hs := h t (List.mem_cons_self t ts)
    simp only [List.cons_append]
    unfold processSizes
    rw [if_pos hs.1]
    cases keep with
    | false =>
      rw [if_neg (by simp)]
      rw [ih _ (fun u hu => h u (List.mem_cons_of_mem t hu))]
      by_cases ha : env.saveOk (derivedPath op t.2.2 "avif") "AVIF" = true <;>
        simp [sizeTrace, ha, List.append_assoc]
    | true =>
      rw [if_pos rfl, if_pos (hs.2 rfl)]
      rw [ih _ (fun u hu => h u (List.mem_cons_of_mem t hu))]
      by_cases ha : env.saveOk (derivedPath op t.2.2 "avif") "AVIF" = true <;>
        simp [sizeTrace, ha, List.append_assoc]

lemma processSizes_abort_jpg (env : GenEnv) (op : FsPath) (img : PImage)
    (spec : Nat × Option Nat × String) (rest : List (Nat × Option Nat × String))
    (hw : env.saveOk (derivedPath op spec.2.2 "webp") "WEBP" = true)
    (hj : env.saveOk (derivedPath op spec.2.2 "jpg") "JPEG" = false) :
    ∀ (done : List (Nat × Option Nat × String)) (acc : List SaveEvent),
      (∀ t ∈ done, mandatoryOk env op true t) →
      processSizes env op img true (done ++ spec :: rest) acc
        = .error (acc ++ (done.flatMap (sizeTrace env op img true)
            ++ webpEvent op img spec
              :: (if env.saveOk (derivedPath op spec.2.2 "avif") "AVIF" then
                    [avifEvent op img spec]
                  else []))) := by
  intro done
  induction done with
  | nil =>
    intro acc _
    simp only [List.nil_append, List.flatMap_nil]
    unfold processSizes
    rw [if_pos hw, if_pos rfl, if_neg (by simp [hj])]
    by_cases ha : env.saveOk (derivedPath op spec.2.2 "avif") "AVIF" = true <;>
      simp [ha, List.append_assoc]
  | cons t ts ih =>
    intro acc h
    have hs := h t (List.mem_cons_self t ts)
    simp only [List.cons_append]
    unfold processSizes
    rw [if_pos hs.1, if_pos rfl, if_pos (hs.2 rfl)]
    rw [ih _ (fun u hu => h u (List.mem_cons_of_mem t hu))]
    by_cases ha : env.saveOk (derivedPath op t.2.2 "avif") "AVIF" = true <;>
      simp [sizeTrace, ha, List.append_assoc]

lemma generate_thumbnails_run (env : GenEnv) (p : FsPath) (s : String) (keep : Bool)
    (img0 : PImage)
    (hpil : env.hasPillow = true)
    (hex : env.fileExists (resolvePath p s) = true)
    (hproc : is_image_processable (resolvePath p s) = true)
    (hdec : env.decodeResult = some img0)
    (hcar : env.saveOk (derivedPath (resolvePath p s) "carousel" "webp") "WEBP" = true) :
    generate_thumbnails env p s keep
      = match processSizes env (resolvePath p s) (normalizeColor img0) keep THUMBNAIL_SIZES
            [carouselEvent (resolvePath p s) (normalizeColor img0)] with
        | .ok evs => (true, evs)
        | .error evs => (false, evs) := by
  unfold generate_thumbnails
  rw [hdec]
  simp only [hpil, hex, hproc, not_true_eq_false, Bool.false_eq_true, if_false, hcar, if_true]

/-! ## Claim C6 -/

/-- The white pixel with full alpha. -/
def whitePixel : RGBA := ⟨255, 255, 255, 255⟩

/-- **C6**: colour normalisation maps every decoded source to a three-channel
`"RGB"` image of unchanged dimensions; for alpha-carrying or palette modes
(`RGBA`, `LA`, `P`) the result pixels are fully covered (alpha 255) and a
fully transparent source pixel renders as white; an `RGBA` source is exactly
the white background composited with the source's alpha band as mask; an
`RGB` source passes through; any other mode is converted with
`convert("RGB")`. -/
theorem c6_normalize_color (img : PImage) (x y : Nat) :
    (normalizeColor img).mode = "RGB"
      ∧ (normalizeColor img).width = img.width
      ∧ (normalizeColor img).height = img.height
      ∧ ((img.mode = "RGBA" ∨ img.mode = "LA" ∨ img.mode = "P") →
          ((normalizeColor img).pix x y).a = 255
            ∧ ((img.pix x y).a = 0 → (normalizeColor img).pix x y = whitePixel))
      ∧ (img.mode = "RGBA" →
          normalizeColor img
            = pasteOnto (newWhiteRGB img.width img.height) img
                (some (fun u v => (img.pix u v).a)))
      ∧ (img.mode = "RGB" → normalizeColor img = img)
      ∧ (img.mode ≠ "RGBA" → img.mode ≠ "LA" → img.mode ≠ "P" → img.mode ≠ "RGB" →
          normalizeColor img = convertRGB img) := by
  obtain ⟨wd, ht, m, px⟩ := img
  by_cases h1 : m = "RGBA"
  · subst h1
    refine ⟨rfl, rfl, rfl, fun _ => ⟨rfl, fun ha => ?_⟩, fun _ => rfl,
      fun hc => absurd hc (by show ¬("RGBA" = "RGB"); decide), fun hc => absurd rfl hc⟩
    have hstep : (normalizeColor ⟨wd, ht, "RGBA", px⟩).pix x y
        = ⟨blendChannel (px x y).r 255 ((px x y).a), blendChannel (px x y).g 255 ((px x y).a),
           blendChannel (px x y).b 255 ((px x y).a), 255⟩ := rfl
    rw [hstep, ha]
    simp [blendChannel, whitePixel]
  · by_cases h2 : m = "LA"
    · subst h2
      refine ⟨rfl, rfl, rfl, fun _ => ⟨rfl, fun ha => ?_⟩,
        fun hc => absurd hc (by show ¬("LA" = "RGBA"); decide),
        fun hc => absurd hc (by show ¬("LA" = "RGB"); decide), fun _ hc => absurd rfl hc⟩
      have hstep : (normalizeColor ⟨wd, ht, "LA", px⟩).pix x y
          = ⟨blendChannel (px x y).r 255 ((px x y).a), blendChannel (px x y).g 255 ((px x y).a),
             blendChannel (px x y).b 255 ((px x y).a), 255⟩ := rfl
      rw [hstep, ha]
      simp [blendChannel, whitePixel]
    · by_cases h3 : m = "P"
      · subst h3
        refine ⟨rfl, rfl, rfl, fun _ => ⟨rfl, fun ha => ?_⟩,
          fun hc => absurd hc (by show ¬("P" = "RGBA"); decide),
          fun hc => absurd hc (by show ¬("P" = "RGB"); decide), fun _ _ hc => absurd rfl hc⟩
        have hstep : (normalizeColor ⟨wd, ht, "P", px⟩).pix x y
            = ⟨blendChannel (px x y).r 255 ((px x y).a), blendChannel (px x y).g 255 ((px x y).a),
               blendChannel (px x y).b 255 ((px x y).a), 255⟩ := rfl
        rw [hstep, ha]
        simp [blendChannel, whitePixel]
      · by_cases h4 : m = "RGB"
        · subst h4
          exact ⟨rfl, rfl, rfl,
            fun hc => absurd hc (by show ¬("RGB" = "RGBA" ∨ "RGB" = "LA" ∨ "RGB" = "P"); decide),
            fun hc => absurd hc (by show ¬("RGB" = "RGBA"); decide),
            fun _ => rfl, fun _ _ _ hc => absurd rfl hc⟩
        · have hcond : ¬((⟨wd, ht, m, px⟩ : PImage).mode = "RGBA"
              ∨ (⟨wd, ht, m, px⟩ : PImage).mode = "LA"
              ∨ (⟨wd, ht, m, px⟩ : PImage).mode = "P") := by
            simp only []
            tauto
          have heq : normalizeColor ⟨wd, ht, m, px⟩ = convertRGB ⟨wd, ht, m, px⟩ := by
            unfold normalizeColor
            rw [if_neg hcond, if_pos h4]
          exact ⟨by rw [heq]; rfl, by rw [heq]; rfl, by rw [heq]; rfl,
            fun hc => absurd hc hcond, fun hc => absurd hc h1, fun hc => absurd hc h4,
            fun _ _ _ _ => heq⟩

/-- A 2 × 2 fully transparent `RGBA` source image. -/
def transparentImg : PImage := ⟨2, 2, "RGBA", fun _ _ => ⟨10, 20, 30, 0⟩⟩

/-- **C6, witness**: normalising a concrete fully transparent image yields an
`"RGB"`-mode image whose pixel renders as white. -/
theorem c6_witness :
    (normalizeColor transparentImg).mode = "RGB"
      ∧ (normalizeColor transparentImg).pix 0 0 = whitePixel :=
  ⟨(c6_normalize_color transparentImg 0 0).1,
   ((c6_normalize_color transparentImg 0 0).2.2.2.1 (Or.inl rfl)).2 rfl⟩

/-! ## Claim C7 -/

/-- **C7**: `delete_thumbnails` returns `True` whenever the resolved original
exists, regardless of how many derived files were there to delete; when no
derived file exists it performs zero deletions (idempotent no-op); derived
paths that do not exist are skipped without producing any event; when the
resolved original does not exist it returns `False` (and deletes nothing). -/
theorem c7_delete_thumbnails_success (env : DelEnv) (p : FsPath) (s : String) :
    (env.fileExists (resolvePath p s) = true →
        (delete_thumbnails env p s).1 = true
          ∧ ((∀ q ∈ deleteTargets (resolvePath p s), env.fileExists q = false) →
              (delete_thumbnails env p s).2 = [])
          ∧ ∀ ev ∈ (delete_thumbnails env p s).2, env.fileExists ev.path = true)
      ∧ (env.fileExists (resolvePath p s) = false →
          delete_thumbnails env p s = (false, [])) := by
  constructor
  · intro hex
    refine ⟨?_, ?_, ?_⟩
    · simp [delete_thumbnails, hex]
    · intro hnone
      simp only [delete_thumbnails, hex, Bool.true_eq_false, not_true_eq_false, if_false]
      exact foldl_tryUnlink_skip env _ [] hnone
    · intro ev hev
      simp only [delete_thumbnails, hex, Bool.true_eq_false, not_true_eq_false, if_false] at hev
      exact foldl_tryUnlink_path_exists env _ [] (by intro e h; cases h) ev hev
  · intro hex
    simp [delete_thumbnails, hex]

/-- **C7, witness**: a filesystem where the original exists but no derived
file does — `delete_thumbnails` succeeds and removes nothing — and one where
the original is missing — it fails. -/
theorem c7_witness :
    delete_thumbnails ⟨fun q => q.stem = "abc123", fun _ => true⟩ samplePath "static"
        = (true, [])
      ∧ delete_thumbnails ⟨fun _ => false, fun _ => true⟩ samplePath "static" = (false, []) := by
  constructor
  · have h := c7_delete_thumbnails_success
      ⟨fun q => q.stem = "abc123", fun _ => true⟩ samplePath "static"
    have h1 := (h.1 (by decide)).1
    have h2 := (h.1 (by decide)).2.1 (by decide)
    rcases hd : delete_thumbnails ⟨fun q => q.stem = "abc123", fun _ => true⟩ samplePath "static"
      with ⟨b, evs⟩
    rw [hd] at h1 h2
    simp only at h1 h2
    rw [h1, h2]
  · exact (c7_delete_thumbnails_success ⟨fun _ => false, fun _ => true⟩ samplePath "static").2
      (by decide)

/-! ## Claim C8 -/

/-- A filesystem in which every file exists and only the original
`uploads/photos/abc123.jpg` itself can be unlinked: every derived-file
deletion raises a (caught) error. -/
def failingDelEnv : DelEnv :=
  { fileExists := fun _ => true, unlinkOk := fun q => q.stem = "abc123" }

/-- **C8** (code bug): the individual deletion errors are indeed
caught, logged and do not stop the batch, but they are *not* folded into the
boolean result: with every derived-file unlink failing, `delete_thumbnails`
still returns `True` (contradicting its own docstring "True if all deletions
succeeded or no thumbnails found"), and `delete_original_and_thumbnails`
also returns `True` because only the thumbnail-cleanup boolean and the
original unlink feed its result.  The trace shows the failed deletions the
booleans ignore. -/
theorem c8_code_behavior :
    (delete_thumbnails failingDelEnv samplePath "static").1 = true
      ∧ ((delete_thumbnails failingDelEnv samplePath "static").2.filter
            DelEvent.isFailed).length = 13
      ∧ (delete_original_and_thumbnails failingDelEnv samplePath "static").1 = true
      ∧ ((delete_original_and_thumbnails failingDelEnv samplePath "static").2.filter
            DelEvent.isFailed).length = 13 := by
  decide

/-! ## Claim C10 -/

/-- **C10**: when the resolved original does not exist,
`delete_original_and_thumbnails` returns `False` (with no deletions), because
the `delete_thumbnails` step reports failure for a missing original —
repeating the operation after a successful delete is not an idempotent
success. -/
theorem c10_delete_original_missing (env : DelEnv) (p : FsPath) (s : String)
    (h : env.fileExists (resolvePath p s) = false) :
    delete_original_and_thumbnails env p s = (false, []) := by
  simp [delete_original_and_thumbnails, delete_thumbnails, resolvePath_idem, h]

/-- **C10, witness**: on an empty filesystem the combined delete fails. -/
theorem c10_witness :
    delete_original_and_thumbnails ⟨fun _ => false, fun _ => true⟩ samplePath "static"
      = (false, []) :=
  c10_delete_original_missing ⟨fun _ => false, fun _ => true⟩ samplePath "static" (by decide)

/-! ## Claim C2 -/

/-- A successfully decodable 2000 × 1500 `RGB` source image. -/
def sampleImg : PImage := ⟨2000, 1500, "RGB", fun _ _ => ⟨0, 0, 0, 255⟩⟩

/-- An environment in which every save succeeds except the one targeting
`abc123-thumb-sm` — i.e. the mandatory WebP save of the first configured
size fails. -/
def webpFailEnv : GenEnv :=
  ⟨true, fun _ => true, some sampleImg, fun q _ => q.stem ≠ "abc123-thumb-sm"⟩

/-- **C2, counterexample**: with the first size's mandatory WebP save failing,
`generate_thumbnails` returns `False` — the failure *is* propagated to the
return value although decode and setup succeeded — and the write trace stops
after the carousel file: none of the three remaining configured sizes is
processed.  The claim as stated requires the remaining sizes' files to be
written and the return value to stay `True`. -/
theorem c2_counterexample_mandatory_failure :
    generate_thumbnails webpFailEnv samplePath "static" true
        = (false, [carouselEvent (resolvePath samplePath "static") (normalizeColor sampleImg)])
      ∧ THUMBNAIL_SIZES.length = 4 := by
  decide

/-- **C2** (amended): a failure to encode either of the two unguarded
mandatory formats for one size raises out of the per-size loop: the sizes
after the failing one are not processed, and the failure is propagated as an
overall `False` return.  The first conjunct covers a failing WebP save
(nothing of the failing size is written); the second a failing JPEG save
with the legacy format kept (the failing size's WebP file — and AVIF file
when that encoder is available — is already written before the abort).
Only the AVIF save is individually guarded (claim C3).
`done ++ spec :: rest` splits `THUMBNAIL_SIZES` around the failing size. -/
theorem c2_mandatory_failure_aborts (env : GenEnv) (p : FsPath) (s : String) (keep : Bool)
    (img0 : PImage) (done rest : List (Nat × Option Nat × String))
    (spec : Nat × Option Nat × String)
    (hpil : env.hasPillow = true)
    (hex : env.fileExists (resolvePath p s) = true)
    (hproc : is_image_processable (resolvePath p s) = true)
    (hdec : env.decodeResult = some img0)
    (hcar : env.saveOk (derivedPath (resolvePath p s) "carousel" "webp") "WEBP" = true)
    (hsplit : THUMBNAIL_SIZES = done ++ spec :: rest)
    (hdone : ∀ t ∈ done, mandatoryOk env (resolvePath p s) keep t) :
    (env.saveOk (derivedPath (resolvePath p s) spec.2.2 "webp") "WEBP" = false →
        generate_thumbnails env p s keep
          = (false, carouselEvent (resolvePath p s) (normalizeColor img0)
              :: done.flatMap (sizeTrace env (resolvePath p s) (normalizeColor img0) keep)))
      ∧ (keep = true →
          env.saveOk (derivedPath (resolvePath p s) spec.2.2 "webp") "WEBP" = true →
          env.saveOk (derivedPath (resolvePath p s) spec.2.2 "jpg") "JPEG" = false →
          generate_thumbnails env p s keep
            = (false, carouselEvent (resolvePath p s) (normalizeColor img0)
                :: (done.flatMap (sizeTrace env (resolvePath p s) (normalizeColor img0) keep)
                    ++ webpEvent (resolvePath p s) (normalizeColor img0) spec
                      :: (if env.saveOk (derivedPath (resolvePath p s) spec.2.2 "avif")
                              "AVIF" then
                            [avifEvent (resolvePath p s) (normalizeColor img0) spec]
                          else [])))) := by
  constructor
  · intro hfail
    rw [generate_thumbnails_run env p s keep img0 hpil hex hproc hdec hcar, hsplit,
      processSizes_abort env (resolvePath p s) (normalizeColor img0) keep spec rest hfail
        done _ hdone]
    rfl
  · intro hkeep hw hj
    subst hkeep
    rw [generate_thumbnails_run env p s true img0 hpil hex hproc hdec hcar, hsplit,
      processSizes_abort_jpg env (resolvePath p s) (normalizeColor img0) spec rest hw hj
        done _ hdone]
    rfl

/-- An environment in which every save succeeds except the JPEG save
targeting `abc123-thumb-sm` — the mandatory legacy-format save of the first
configured size fails. -/
def jpgFailEnv : GenEnv :=
  ⟨true, fun _ => true, some sampleImg,
   fun q f => if f = "JPEG" ∧ q.stem = "abc123-thumb-sm" then false else true⟩

/-- **C2, witness**: the amended theorem applied at the first configured size
to the concrete environment whose WebP save fails there, and to the one
whose JPEG save fails there. -/
theorem c2_witness :
    generate_thumbnails webpFailEnv samplePath "static" true
        = (false, carouselEvent (resolvePath samplePath "static") (normalizeColor sampleImg)
            :: ([] : List (Nat × Option Nat × String)).flatMap
                (sizeTrace webpFailEnv (resolvePath samplePath "static")
                  (normalizeColor sampleImg) true))
      ∧ generate_thumbnails jpgFailEnv samplePath "static" true
          = (false, carouselEvent (resolvePath samplePath "static") (normalizeColor sampleImg)
              :: (([] : List (Nat × Option Nat × String)).flatMap
                    (sizeTrace jpgFailEnv (resolvePath samplePath "static")
                      (normalizeColor sampleImg) true)
                  ++ webpEvent (resolvePath samplePath "static") (normalizeColor sampleImg)
                      (110, some 110, "thumb-sm")
                    :: (if jpgFailEnv.saveOk
                            (derivedPath (resolvePath samplePath "static") "thumb-sm" "avif")
                            "AVIF" then
                          [avifEvent (resolvePath samplePath "static") (normalizeColor sampleImg)
                            (110, some 110, "thumb-sm")]
                        else []))) :=
  ⟨(c2_mandatory_failure_aborts webpFailEnv samplePath "static" true sampleImg []
      [(220, some 220, "thumb-md"), (165, some 165, "thumb-detail"),
       (330, some 330, "thumb-detail-2x")]
      (110, some 110, "thumb-sm") rfl rfl (by decide) rfl (by decide) rfl
      (fun t ht => absurd ht (List.not_mem_nil t))).1 (by decide),
   (c2_mandatory_failure_aborts jpgFailEnv samplePath "static" true sampleImg []
      [(220, some 220, "thumb-md"), (165, some 165, "thumb-detail"),
       (330, some 330, "thumb-detail-2x")]
      (110, some 110, "thumb-sm") rfl rfl (by decide) rfl (by decide) rfl
      (fun t ht => absurd ht (List.not_mem_nil t))).2 rfl (by decide) (by decide)⟩

/-! ## Claim C3 -/

/-- **C3**: when every AVIF save fails (the optional encoder is absent) but
WebP and JPEG saves succeed, `generate_thumbnails` still returns `True`, the
trace contains the WebP file and — when the legacy format is kept — the JPEG
file for every configured size (plus the carousel), and zero AVIF files are
produced. -/
theorem c3_avif_failure_tolerated (env : GenEnv) (p : FsPath) (s : String) (keep : Bool)
    (img0 : PImage)
    (hpil : env.hasPillow = true)
    (hex : env.fileExists (resolvePath p s) = true)
    (hproc : is_image_processable (resolvePath p s) = true)
    (hdec : env.decodeResult = some img0)
    (havif : ∀ q, env.saveOk q "AVIF" = false)
    (hwebp : ∀ q, env.saveOk q "WEBP" = true)
    (hjpg : ∀ q, env.saveOk q "JPEG" = true) :
    generate_thumbnails env p s keep
        = (true, carouselEvent (resolvePath p s) (normalizeColor img0)
            :: THUMBNAIL_SIZES.flatMap (fun spec =>
                webpEvent (resolvePath p s) (normalizeColor img0) spec
                  :: (if keep then [jpgEvent (resolvePath p s) (normalizeColor img0) spec]
                      else [])))
      ∧ (generate_thumbnails env p s keep).2.filter (fun e => e.format = "AVIF") = [] := by
  have htr := processSizes_ok env (resolvePath p s) (normalizeColor img0) keep THUMBNAIL_SIZES
    [carouselEvent (resolvePath p s) (normalizeColor img0)]
    (fun spec _ => ⟨hwebp _, fun _ => hjpg _⟩)
  have hrun := generate_thumbnails_run env p s keep img0 hpil hex hproc hdec (hwebp _)
  have heq : generate_thumbnails env p s keep
      = (true, carouselEvent (resolvePath p s) (normalizeColor img0)
          :: THUMBNAIL_SIZES.flatMap (fun spec =>
              webpEvent (resolvePath p s) (normalizeColor img0) spec
                :: (if keep then [jpgEvent (resolvePath p s) (normalizeColor img0) spec]
                    else []))) := by
    have hfm : sizeTrace env (resolvePath p s) (normalizeColor img0) keep
        = fun spec => webpEvent (resolvePath p s) (normalizeColor img0) spec
            :: (if keep then [jpgEvent (resolvePath p s) (normalizeColor img0) spec] else []) := by
      funext spec
      simp [sizeTrace, havif]
    rw [hrun, htr, hfm]
    rfl
  refine ⟨heq, ?_⟩
  rw [heq]
  cases keep <;>
    simp [THUMBNAIL_SIZES, carouselEvent, webpEvent, jpgEvent]

/-- An environment whose AVIF encoder is missing: saving any path in format
`"AVIF"` fails, all other saves succeed. -/
def noAvifEnv : GenEnv :=
  ⟨true, fun _ => true, some sampleImg, fun _ f => f ≠ "AVIF"⟩

/-- **C3, witness**: the theorem applied to the concrete AVIF-less
environment. -/
theorem c3_witness :
    generate_thumbnails noAvifEnv samplePath "static" true
      = (true, carouselEvent (resolvePath samplePath "static") (normalizeColor sampleImg)
          :: THUMBNAIL_SIZES.flatMap (fun spec =>
              webpEvent (resolvePath samplePath "static") (normalizeColor sampleImg) spec
                :: (if true then
                      [jpgEvent (resolvePath samplePath "static") (normalizeColor sampleImg) spec]
                    else []))) :=
  (c3_avif_failure_tolerated noAvifEnv samplePath "static" true sampleImg rfl rfl (by decide)
    rfl (fun q => rfl) (fun q => rfl) (fun q => rfl)).1

/-! ## Claim C9 -/

/-- **C9**: on a fully successful run the write trace is exactly one carousel
event followed by, for each configured size in order, the WebP, AVIF and —
when the legacy format is kept — JPEG events; the carousel file is the only
quality-85 write (one carousel artifact, produced only in WebP), it is named
`{stem}-carousel.webp` in the original's parent directory and uses
`method=6`; thumbnail WebP saves use quality 80 with `method=6`, AVIF saves
quality 75, and JPEG saves quality 80 with `optimize=True`. -/
theorem c9_success_encoding_parameters (env : GenEnv) (p : FsPath) (s : String) (keep : Bool)
    (img0 : PImage)
    (hpil : env.hasPillow = true)
    (hex : env.fileExists (resolvePath p s) = true)
    (hproc : is_image_processable (resolvePath p s) = true)
    (hdec : env.decodeResult = some img0)
    (hsave : ∀ q f, env.saveOk q f = true) :
    generate_thumbnails env p s keep
        = (true, carouselEvent (resolvePath p s) (normalizeColor img0)
            :: THUMBNAIL_SIZES.flatMap (fun spec =>
                [webpEvent (resolvePath p s) (normalizeColor img0) spec,
                 avifEvent (resolvePath p s) (normalizeColor img0) spec]
                  ++ (if keep then [jpgEvent (resolvePath p s) (normalizeColor img0) spec]
                      else [])))
      ∧ (generate_thumbnails env p s keep).2.filter (fun e => e.quality = 85)
          = [carouselEvent (resolvePath p s) (normalizeColor img0)]
      ∧ (carouselEvent (resolvePath p s) (normalizeColor img0)).path
          = derivedPath (resolvePath p s) "carousel" "webp"
      ∧ (carouselEvent (resolvePath p s) (normalizeColor img0)).format = "WEBP"
      ∧ (carouselEvent (resolvePath p s) (normalizeColor img0)).quality = 85
      ∧ (carouselEvent (resolvePath p s) (normalizeColor img0)).method = some 6
      ∧ ∀ spec : Nat × Option Nat × String,
          (webpEvent (resolvePath p s) (normalizeColor img0) spec).quality = 80
            ∧ (webpEvent (resolvePath p s) (normalizeColor img0) spec).method = some 6
            ∧ (avifEvent (resolvePath p s) (normalizeColor img0) spec).quality = 75
            ∧ (jpgEvent (resolvePath p s) (normalizeColor img0) spec).quality = 80
            ∧ (jpgEvent (resolvePath p s) (normalizeColor img0) spec).optimize = true := by
  have htr := processSizes_ok env (resolvePath p s) (normalizeColor img0) keep THUMBNAIL_SIZES
    [carouselEvent (resolvePath p s) (normalizeColor img0)]
    (fun spec _ => ⟨hsave _ _, fun _ => hsave _ _⟩)
  have hrun := generate_thumbnails_run env p s keep img0 hpil hex hproc hdec (hsave _ _)
  have heq : generate_thumbnails env p s keep
      = (true, carouselEvent (resolvePath p s) (normalizeColor img0)
          :: THUMBNAIL_SIZES.flatMap (fun spec =>
              [webpEvent (resolvePath p s) (normalizeColor img0) spec,
               avifEvent (resolvePath p s) (normalizeColor img0) spec]
                ++ (if keep then [jpgEvent (resolvePath p s) (normalizeColor img0) spec]
                    else []))) := by
    have hfm : sizeTrace env (resolvePath p s) (normalizeColor img0) keep
        = fun spec =>
            [webpEvent (resolvePath p s) (normalizeColor img0) spec,
             avifEvent (resolvePath p s) (normalizeColor img0) spec]
              ++ (if keep then [jpgEvent (resolvePath p s) (normalizeColor img0) spec]
                  else []) := by
      funext spec
      simp [sizeTrace, hsave]
    rw [hrun, htr, hfm]
    rfl
  refine ⟨heq, ?_, rfl, rfl, rfl, rfl, fun spec => ⟨rfl, rfl, rfl, rfl, rfl⟩⟩
  rw [heq]
  cases keep <;>
    simp [THUMBNAIL_SIZES, carouselEvent, webpEvent, avifEvent, jpgEvent]

/-- An environment in which every save succeeds. -/
def allOkEnv : GenEnv := ⟨true, fun _ => true, some sampleImg, fun _ _ => true⟩

/-- **C9, witness**: the trace equation of the theorem at the all-succeeding
concrete environment. -/
theorem c9_witness :
    generate_thumbnails allOkEnv samplePath "static" true
      = (true, carouselEvent (resolvePath samplePath "static") (normalizeColor sampleImg)
          :: THUMBNAIL_SIZES.flatMap (fun spec =>
              [webpEvent (resolvePath samplePath "static") (normalizeColor sampleImg) spec,
               avifEvent (resolvePath samplePath "static") (normalizeColor sampleImg) spec]
                ++ (if true then
                      [jpgEvent (resolvePath samplePath "static") (normalizeColor sampleImg) spec]
                    else []))) :=
  (c9_success_encoding_parameters allOkEnv samplePath "static" true sampleImg rfl rfl
    (by decide) rfl (fun q f => rfl)).1
